import Mathlib

/-!
# Verification of the borg-boost wallet-connection widget

A shallow embedding of the wallet-connection widget of `compusophy/borg-boost`
(the authoritative final revision of `WalletConnect`, the one using
`getProvider`, localStorage persistence and a `finally` finalizer in
`connectWallet`).  Qwik signals become fields of an explicit `Session` record,
`localStorage` becomes an explicit `LocalStorage` record, and every `async`
operation becomes a pure state-transition function parameterised by an
environment record carrying the outcome of each external call (provider
resolution result, RPC responses, chain reads).  The event loop is
single-threaded, so each operation runs to completion as one transition.
-/

/-- An abstract wallet-provider handle.  Providers carry an identity only; the
widget never inspects a provider beyond using it as a channel, so for state
claims the handle itself is opaque. -/
structure EthereumProvider where
  id : Nat
deriving DecidableEq, Repr

/-- The `window.ethereum` object injected by a browser extension.  In
environments with several competing extensions it may expose a
`providers` list as one of its own properties; the widget reads that list as
`window.ethereum?.providers || []`. -/
structure BrowserEthereum where
  self : EthereumProvider
  providers : List EthereumProvider
deriving DecidableEq, Repr

/-- The ambient host/browser context read by `getProvider` on each call:
`window.frame?.sdk?.wallet?.ethProvider` (host-frame runtime provider) and
`window.ethereum` (browser-injected provider).  Nullish JavaScript values are
modelled as `none`; an object is always truthy, so truthiness tests on these
fields coincide with `Option.isSome`. -/
structure AmbientContext where
  frameEthProvider : Option EthereumProvider
  windowEthereum : Option BrowserEthereum
deriving DecidableEq, Repr

/-- Model of `getProvider` (part_000 lines 51-81).  Checks the frame-SDK provider, then
`window.ethereum`, then `window.ethereum?.providers`, returning the first hit
and `undefined` (here `none`) when every source is absent.  The function is
re-evaluated against the ambient context on every call — it takes the context
as an argument and keeps no state, mirroring the cache-free source. -/
def getProvider (ctx : AmbientContext) : Option EthereumProvider :=
  match ctx.frameEthProvider with
  | some p => some p
  | none =>
    match ctx.windowEthereum with
    | some eth => some eth.self
    | none =>
      let injectedProviders := (ctx.windowEthereum.map (·.providers)).getD []
      match injectedProviders with
      | p :: _ => some p
      | [] => none

/-- A resolver that consults only the first two sources (host-frame provider,
then browser-injected provider); used to state the refinement claim that the
multi-provider branch of `getProvider` is dead. -/
def getProviderTwoSources (ctx : AmbientContext) : Option EthereumProvider :=
  match ctx.frameEthProvider with
  | some p => some p
  | none => ctx.windowEthereum.map (·.self)

/-- The first existing source among an ordered list of optional sources. -/
def firstSource (sources : List (Option EthereumProvider)) : Option EthereumProvider :=
  (sources.filterMap id).head?

/-- The three resolution sources of the spec, in order: host-frame provider,
browser-injected provider, first entry of the browser multi-provider list. -/
def resolutionSources (ctx : AmbientContext) : List (Option EthereumProvider) :=
  [ ctx.frameEthProvider
  , ctx.windowEthereum.map (·.self)
  , ((ctx.windowEthereum.map (·.providers)).getD []).head? ]

/-- The spec's tri-valued connection status. -/
inductive ConnectionStatus where
  | Disconnected
  | Connecting
  | Connected
deriving DecidableEq, Repr

/-- The widget's signals (part_000 lines 27-33): `address`, `chainId`,
`isConnected`, `isConnecting`, `error`, `ethBalance`, `usdcBalance`.  The
spec's `tokenBalance` is `usdcBalance` and `lastError` is `error`. -/
structure Session where
  address : String
  chainId : Nat
  isConnected : Bool
  isConnecting : Bool
  error : String
  ethBalance : String
  usdcBalance : String
deriving DecidableEq, Repr

/-- Refinement map from the two boolean signals to the spec's tri-valued
status: `Connected` when the `isConnected` signal is set, else `Connecting`
when a connection attempt is in flight, else `Disconnected`. -/
def Session.connectionStatus (s : Session) : ConnectionStatus :=
  if s.isConnected then ConnectionStatus.Connected
  else if s.isConnecting then ConnectionStatus.Connecting
  else ConnectionStatus.Disconnected

/-- The session at page load: every signal empty / false / zero. -/
def initialSession : Session :=
  { address := "", chainId := 0, isConnected := false, isConnecting := false
  , error := "", ethBalance := "", usdcBalance := "" }

/-- The two durable storage keys used by the widget: `walletConnected` and
`walletAddress` (`none` models an absent key). -/
structure LocalStorage where
  walletConnected : Option String
  walletAddress : Option String
deriving DecidableEq, Repr

/-- Session signals together with durable storage: the state a widget
operation transforms. -/
structure WidgetState where
  session : Session
  storage : LocalStorage
deriving DecidableEq, Repr

/-- Model of `saveConnectionState` (part_000 lines 84-89): store the flag and the
current value of the `address` signal. -/
def saveConnectionState (s : Session) (_st : LocalStorage) : LocalStorage :=
  { walletConnected := some "true", walletAddress := some s.address }

/-- Model of `clearConnectionState` (part_000 lines 92-97): remove both keys. -/
def clearConnectionState (_st : LocalStorage) : LocalStorage :=
  { walletConnected := none, walletAddress := none }

/-- The character of one decimal digit. -/
def digitChar (d : Nat) : Char := Char.ofNat (48 + d)

/-- Decimal digits of `n`, most significant first, extracted with an explicit
digit-count bound (30 digits covers every value below `10 ^ 30`; every
quantity in this development is far below that). -/
def natDigits : Nat → Nat → List Char → List Char
  | 0, _, acc => acc
  | fuel + 1, n, acc =>
    if n < 10 then digitChar n :: acc
    else natDigits fuel (n / 10) (digitChar (n % 10) :: acc)

/-- Decimal rendering of a natural number. -/
def natToString (n : Nat) : String := String.mk (natDigits 30 n [])

/-- Pad a decimal-digit string on the left with zeros to width `w`. -/
def padZeros (w : Nat) (s : String) : String :=
  if s.length ≥ w then s
  else String.mk (List.replicate (w - s.length) '0') ++ s

/-- Exact-rational model of `(Number(balance) / 10^decimals).toFixed(frac)` for
a non-negative integer `balance`: scale down to `frac` fractional digits with
round-half-up (the tie rule of `toFixed`, which picks the larger candidate),
then print `intPart.fracDigits`.  The JavaScript source computes this through
IEEE doubles; on the concrete balances examined in this development the double
computation is exact or far from a rounding tie, so the exact-rational value
and the double value print identically. -/
def toFixedScaled (decimals frac : Nat) (balance : Nat) : String :=
  let scale := 10 ^ (decimals - frac)
  let scaled := (scale / 2 + balance) / scale
  let intPart := scaled / 10 ^ frac
  let fracPart := scaled % 10 ^ frac
  natToString intPart ++ "." ++ padZeros frac (natToString fracPart)

/-- Value of one hexadecimal digit. -/
def hexDigitVal (c : Char) : Option Nat :=
  if '0' ≤ c ∧ c ≤ '9' then some (c.toNat - '0'.toNat)
  else if 'a' ≤ c ∧ c ≤ 'f' then some (c.toNat - 'a'.toNat + 10)
  else if 'A' ≤ c ∧ c ≤ 'F' then some (c.toNat - 'A'.toNat + 10)
  else none

/-- Accumulate the longest leading run of hex digits. -/
def hexAccum : List Char → Nat → Nat
  | [], acc => acc
  | c :: cs, acc =>
    match hexDigitVal c with
    | some v => hexAccum cs (acc * 16 + v)
    | none => acc

/-- Model of `parseInt(chainIdHex, 16)`: strip an optional `0x`, parse the
longest leading run of hex digits.  `parseInt` yields `NaN` when no digit is
present; the model yields 0 there — no claim in this development inspects the
numeric value of `chainId`, only which operations write it. -/
def chainIdOfHex (s : String) : Nat :=
  let cs := s.toList
  let cs := if cs.take 2 = ['0', 'x'] then cs.drop 2 else cs
  hexAccum cs 0

/-- Outcome of one external call: a result, or a thrown error carrying the
JavaScript error's `message` string (empty models a falsy/absent message). -/
abbrev CallResult (α : Type) := Except String α

/-- Environment of one balance-fetch operation: the ambient context at the
moment the fetch re-resolves its provider, and the outcome of the chain read
(`getBalance` wei amount / `balanceOf` base-unit amount, or a thrown error). -/
structure FetchEnv where
  ctx : AmbientContext
  read : CallResult Nat
deriving Repr

/-- Model of `fetchEthBalance` (part_000 lines 100-122).  Re-resolves the provider; on
`none` it only logs and returns.  On a successful wei read it stores
`(Number(balance) / 1e18).toFixed(4)` into `ethBalance`; a thrown read error
is caught and only logged.  No path touches `error` or any other signal. -/
def fetchEthBalance (env : FetchEnv) (_addr : String) (s : Session) : Session :=
  match getProvider env.ctx with
  | none => s
  | some _ =>
    match env.read with
    | Except.error _ => s
    | Except.ok wei => { s with ethBalance := toFixedScaled 18 4 wei }

/-- Model of `fetchUsdcBalance` (part_000 lines 125-159).  Same shape as
`fetchEthBalance` with the token contract's 6-decimal `balanceOf` read,
stored as `(Number(balance) / 1e6).toFixed(2)` into `usdcBalance`. -/
def fetchUsdcBalance (env : FetchEnv) (_addr : String) (s : Session) : Session :=
  match getProvider env.ctx with
  | none => s
  | some _ =>
    match env.read with
    | Except.error _ => s
    | Except.ok units => { s with usdcBalance := toFixedScaled 6 2 units }

/-- Environment of one `connectWallet` invocation: ambient context at provider
resolution, the `eth_requestAccounts` outcome (`none` models a nullish result,
which the truthiness test treats like an empty list), the environments of the
two awaited balance fetches, and the `eth_chainId` outcome. -/
structure ConnectEnv where
  ctx : AmbientContext
  requestAccounts : CallResult (Option (List String))
  ethFetch : FetchEnv
  usdcFetch : FetchEnv
  chainIdResp : CallResult (Option String)
deriving Repr

/-- Model of `connectWallet` (part_000 lines 279-323), returning the final state
together with the ordered trace of assignments to the `isConnecting` signal.
Entry sets `isConnecting := true` and clears `error`.  The no-provider path
sets the error, writes `isConnecting := false` and returns early — and the
`finally` block then writes `isConnecting := false` a second time.  A
non-empty account list is adopted (`address`, `isConnected := true`,
persist), both balance fetches run, then `eth_chainId`; a thrown
`eth_requestAccounts` or `eth_chainId` lands in the catch, which stores
`err.message || fallback` and leaves `address`/`isConnected` untouched.
Every path ends in the `finally` write `isConnecting := false`. -/
def connectWallet (env : ConnectEnv) (w : WidgetState) : WidgetState × List Bool :=
  let s0 := { w.session with isConnecting := true, error := "" }
  match getProvider env.ctx with
  | none =>
    let s1 := { s0 with
      error := "No wallet provider found. Please install MetaMask or use a Farcaster app."
      isConnecting := false }
    let s2 := { s1 with isConnecting := false }
    ({ w with session := s2 }, [true, false, false])
  | some _ =>
    match env.requestAccounts with
    | Except.error m =>
      let s1 := { s0 with
        error := if m = "" then "Failed to connect wallet. Please try again." else m
        isConnecting := false }
      ({ w with session := s1 }, [true, false])
    | Except.ok oaccts =>
      match oaccts with
      | some (acct :: _) =>
        let s1 := { s0 with address := acct, isConnected := true }
        let store := saveConnectionState s1 w.storage
        let s2 := fetchEthBalance env.ethFetch acct s1
        let s3 := fetchUsdcBalance env.usdcFetch acct s2
        match env.chainIdResp with
        | Except.error m =>
          let s4 := { s3 with
            error := if m = "" then "Failed to connect wallet. Please try again." else m
            isConnecting := false }
          ({ session := s4, storage := store }, [true, false])
        | Except.ok och =>
          let s4 :=
            match och with
            | some h => if h = "" then s3 else { s3 with chainId := chainIdOfHex h }
            | none => s3
          let s5 := { s4 with isConnecting := false }
          ({ session := s5, storage := store }, [true, false])
      | _ =>
        let s1 := { s0 with
          error := "No accounts found. Please try again."
          isConnecting := false }
        ({ w with session := s1 }, [true, false])

/-- Environment of one `checkExistingConnection` run: ambient context, the
non-interactive `eth_accounts` outcome, the interactive `eth_requestAccounts`
outcome of the reconnect branch (its return value is ignored by the source;
only success or a thrown error matters), the two fetch environments, and the
`eth_chainId` outcome of the already-authorized branch. -/
structure InitEnv where
  ctx : AmbientContext
  ethAccounts : CallResult (Option (List String))
  requestAccounts : CallResult Unit
  ethFetch : FetchEnv
  usdcFetch : FetchEnv
  chainIdResp : CallResult (Option String)
deriving Repr

/-- Model of `checkExistingConnection` (part_000 lines 163-223), the session-restoring
part of the mount task.  Reads the persisted record, resolves a provider (on
`none`: set the error and return), queries `eth_accounts`; a non-empty list is
adopted and persisted, balances fetched, chain id read.  With no live account
but a persisted record whose flag is `"true"` and whose address is truthy
(non-empty), an interactive `eth_requestAccounts` is attempted: success adopts
the saved address, a thrown error sets the error and clears the record.  A
throw from `eth_accounts` or `eth_chainId` lands in the outer catch, which
stores a generic checking error. -/
def checkExistingConnection (env : InitEnv) (w : WidgetState) : WidgetState :=
  let wasConnected := w.storage.walletConnected = some "true"
  let savedAddress := w.storage.walletAddress
  match getProvider env.ctx with
  | none =>
    { w with session := { w.session with
        error := "No wallet provider found. Please install MetaMask or use a Farcaster app." } }
  | some _ =>
    match env.ethAccounts with
    | Except.error _ =>
      { w with session := { w.session with
          error := "Error checking wallet connection. Please try again." } }
    | Except.ok oaccts =>
      match oaccts with
      | some (acct :: _) =>
        let s1 := { w.session with address := acct, isConnected := true }
        let store := saveConnectionState s1 w.storage
        let s2 := fetchEthBalance env.ethFetch acct s1
        let s3 := fetchUsdcBalance env.usdcFetch acct s2
        match env.chainIdResp with
        | Except.error _ =>
          ( { session := { s3 with
                error := "Error checking wallet connection. Please try again." }
            , storage := store } : WidgetState )
        | Except.ok och =>
          let s4 :=
            match och with
            | some h => if h = "" then s3 else { s3 with chainId := chainIdOfHex h }
            | none => s3
          ({ session := s4, storage := store } : WidgetState)
      | _ =>
        match savedAddress with
        | some sa =>
          if wasConnected ∧ sa ≠ "" then
            match env.requestAccounts with
            | Except.ok _ =>
              let s1 := { w.session with address := sa, isConnected := true }
              let store := saveConnectionState s1 w.storage
              let s2 := fetchEthBalance env.ethFetch sa s1
              let s3 := fetchUsdcBalance env.usdcFetch sa s2
              ({ session := s3, storage := store } : WidgetState)
            | Except.error _ =>
              { session := { w.session with
                  error := "Failed to reconnect to wallet. Please try connecting again." }
                , storage := clearConnectionState w.storage }
          else w
        | none => w

/-- The `accountsChanged` handler installed by `setupEventListeners`
(part_000 lines 235-250).  A non-empty account list: adopt the first entry,
set the connected flag, persist, fire both balance refreshes.  An empty list:
clear `address`, drop the connected flag, clear the persisted record and both
balances.  The handler never touches `isConnecting` or `error`. -/
def onAccountsChanged (accounts : List String) (ethF usdcF : FetchEnv)
    (w : WidgetState) : WidgetState :=
  match accounts with
  | acct :: _ =>
    let s1 := { w.session with address := acct, isConnected := true }
    let store := saveConnectionState s1 w.storage
    let s2 := fetchEthBalance ethF acct s1
    let s3 := fetchUsdcBalance usdcF acct s2
    { session := s3, storage := store }
  | [] =>
    { session := { w.session with
        address := "", isConnected := false, ethBalance := "", usdcBalance := "" }
      , storage := clearConnectionState w.storage }

/-- The `chainChanged` handler (part_000 lines 252-259): parse the new chain
id and, when an account is connected (`address` truthy), refresh both
balances. -/
def onChainChanged (chainIdHex : String) (ethF usdcF : FetchEnv)
    (w : WidgetState) : WidgetState :=
  let s1 := { w.session with chainId := chainIdOfHex chainIdHex }
  if s1.address ≠ "" then
    let s2 := fetchEthBalance ethF s1.address s1
    let s3 := fetchUsdcBalance usdcF s1.address s2
    { w with session := s3 }
  else
    { w with session := s1 }

/-- Does `pat` occur at the start of `cs`? -/
def charsStartWith : List Char → List Char → Bool
  | [], _ => true
  | _ :: _, [] => false
  | p :: ps, c :: cs => p = c && charsStartWith ps cs

/-- Does `pat` occur anywhere inside `cs`?  Model of
`String.prototype.includes`. -/
def charsContain (pat : List Char) : List Char → Bool
  | [] => charsStartWith pat []
  | c :: cs => charsStartWith pat (c :: cs) || charsContain pat cs

/-- Model of `s.includes(pat)` for strings. -/
def strIncludes (s pat : String) : Bool :=
  charsContain pat.toList s.toList

/-- Environment of one `sendTransaction` invocation.  The operation resolves
its provider as `window.frame?.ethereum || window.ethereum` (not through
`getProvider`), so the environment carries both those ambient values plus the
outcomes of `eth_accounts`, the conditional `eth_requestAccounts`, the token
`transfer` contract write, and the post-success token-balance refresh. -/
structure TransferEnv where
  frameWindowEthereum : Option EthereumProvider
  windowEthereum : Option BrowserEthereum
  ethAccounts : CallResult (Option (List String))
  requestAccounts : CallResult Unit
  writeContract : CallResult String
  usdcFetch : FetchEnv
deriving Repr

/-- Model of `sendTransaction` (part_000 lines 326-397), returning the final state and
whether the token `transfer` write was submitted to the signing client.  The
first guard (`!isConnected`) fails with `'Please connect your wallet first'`
and returns before resolving any provider.  Then the provider is resolved; a
missing one fails with `'No Ethereum provider found'`.  `eth_accounts` is
queried (a throw lands in the outer catch); with no account present an
interactive `eth_requestAccounts` runs, whose failure sets the approval
message.  The `transfer` write either yields a hash (then the token balance
is refreshed) or throws, classified by whether the message contains
`authorized`. -/
def transferErrorMessage (m : String) : String :=
  if strIncludes m "authorized" then "Please approve the transaction in your wallet"
  else if m = "" then "Failed to send transaction" else m

/-- The `walletClient.writeContract` step of `sendTransaction` (part_000 lines
364-396): submit the `transfer` call; on a hash, refresh the token balance; on
a throw, classify the message.  Both outcomes mean a submission was
attempted. -/
def sendTransactionWrite (env : TransferEnv) (w : WidgetState) : WidgetState × Bool :=
  match env.writeContract with
  | Except.ok _hash =>
    ({ w with session := fetchUsdcBalance env.usdcFetch w.session.address w.session }, true)
  | Except.error m =>
    ({ w with session := { w.session with error := transferErrorMessage m } }, true)

/-- Model of `(window.frame?.ethereum || window.ethereum)` (part_000 line 332): the
provider expression `sendTransaction` resolves, distinct from `getProvider`. -/
def transferProvider (env : TransferEnv) : Option EthereumProvider :=
  match env.frameWindowEthereum with
  | some p => some p
  | none => env.windowEthereum.map (·.self)

def sendTransaction (env : TransferEnv) (w : WidgetState) : WidgetState × Bool :=
  if !w.session.isConnected then
    ({ w with session := { w.session with error := "Please connect your wallet first" } }
    , false)
  else
    match transferProvider env with
    | none =>
      ({ w with session := { w.session with error := "No Ethereum provider found" } }
      , false)
    | some _ =>
      match env.ethAccounts with
      | Except.error m =>
        ({ w with session := { w.session with error := transferErrorMessage m } }, false)
      | Except.ok oaccts =>
        match oaccts with
        | some (_ :: _) => sendTransactionWrite env w
        | _ =>
          match env.requestAccounts with
          | Except.error _ =>
            ({ w with session := { w.session with
                error := "Please approve the wallet connection request" } }, false)
          | Except.ok _ => sendTransactionWrite env w

/-- The set of handlers subscribed on a provider, per event, in subscription
order.  Handlers are identified by tokens; `provider.on` appends — the
standard emitter `on` never detaches anything. -/
structure ListenerState where
  accountsChangedHandlers : List Nat
  chainChangedHandlers : List Nat
deriving DecidableEq, Repr

/-- No subscriptions yet. -/
def emptyListeners : ListenerState :=
  { accountsChangedHandlers := [], chainChangedHandlers := [] }

/-- Token identifying the widget's real `accountsChanged` handler. -/
def widgetAccountsHandler : Nat := 0
/-- Token identifying the widget's real `chainChanged` handler. -/
def widgetChainHandler : Nat := 1
/-- Token identifying the fresh no-op closure the teardown passes to
`provider.on('accountsChanged', ...)`. -/
def noopAccountsHandler : Nat := 2
/-- Token identifying the fresh no-op closure the teardown passes to
`provider.on('chainChanged', ...)`. -/
def noopChainHandler : Nat := 3

/-- Model of `setupEventListeners` (part_000 lines 229-261): when a provider resolves,
subscribe the widget's two handlers via `provider.on`. -/
def setupEventListeners (ctx : AmbientContext) (ls : ListenerState) : ListenerState :=
  match getProvider ctx with
  | none => ls
  | some _ =>
    { accountsChangedHandlers := ls.accountsChangedHandlers ++ [widgetAccountsHandler]
    , chainChangedHandlers := ls.chainChangedHandlers ++ [widgetChainHandler] }

/-- The teardown action (part_000 lines 267-275): re-resolve the provider and,
when one is found, call `provider.on('accountsChanged', () => \x7b\x7d)` and
`provider.on('chainChanged', () => \x7b\x7d)` — i.e. subscribe two fresh no-op
closures.  `on` attaches; nothing is detached. -/
def cleanupListeners (ctx : AmbientContext) (ls : ListenerState) : ListenerState :=
  match getProvider ctx with
  | none => ls
  | some _ =>
    { accountsChangedHandlers := ls.accountsChangedHandlers ++ [noopAccountsHandler]
    , chainChangedHandlers := ls.chainChangedHandlers ++ [noopChainHandler] }

/-- One completed Session Controller operation, carrying the environment
(outcomes of its external calls) it ran against. -/
inductive SessionOp where
  | init (env : InitEnv)
  | connect (env : ConnectEnv)
  | accountsChangedEvent (accounts : List String) (ethF usdcF : FetchEnv)
  | chainChangedEvent (chainIdHex : String) (ethF usdcF : FetchEnv)
  | transfer (env : TransferEnv)

/-- Run one operation to completion. -/
def runOp : SessionOp → WidgetState → WidgetState
  | SessionOp.init env, w => checkExistingConnection env w
  | SessionOp.connect env, w => (connectWallet env w).1
  | SessionOp.accountsChangedEvent accounts ethF usdcF, w =>
      onAccountsChanged accounts ethF usdcF w
  | SessionOp.chainChangedEvent h ethF usdcF, w => onChainChanged h ethF usdcF w
  | SessionOp.transfer env, w => (sendTransaction env w).1

/-- Run a sequence of completed operations, oldest first. -/
def runOps (ops : List SessionOp) (w : WidgetState) : WidgetState :=
  ops.foldl (fun w op => runOp op w) w

/-- Well-formedness of one delivered account list: when non-empty, its first
entry — the one the widget adopts as `address` — is a non-empty string.  Every
real provider delivers `0x`-prefixed account strings, so this holds of any
conforming provider boundary. -/
def firstAccountOk (o : Option (List String)) : Bool :=
  match o with
  | some (a :: _) => a != ""
  | _ => true

/-- Well-formedness of an account-call outcome: a successful result delivers a
well-formed account list (a thrown error delivers none). -/
def callAccountsOk (r : CallResult (Option (List String))) : Bool :=
  match r with
  | Except.ok o => firstAccountOk o
  | Except.error _ => true

/-- Well-formedness of the account lists an operation's environment delivers. -/
def opAccountsOk : SessionOp → Bool
  | SessionOp.init env => callAccountsOk env.ethAccounts
  | SessionOp.connect env => callAccountsOk env.requestAccounts
  | SessionOp.accountsChangedEvent accounts _ _ => firstAccountOk (some accounts)
  | SessionOp.chainChangedEvent _ _ _ => true
  | SessionOp.transfer _ => true

/-- The spec's session invariant: `Connected` status exactly when `address`
is non-empty. -/
def connectedIffAddress (s : Session) : Prop :=
  s.connectionStatus = ConnectionStatus.Connected ↔ s.address ≠ ""

instance (s : Session) : Decidable (connectedIffAddress s) := by
  unfold connectedIffAddress; infer_instance

/-- A demonstration provider handle. -/
def demoProvider : EthereumProvider := { id := 10 }

/-- A context exposing only a browser-injected provider. -/
def browserCtx : AmbientContext :=
  { frameEthProvider := none
  , windowEthereum := some { self := demoProvider, providers := [] } }

/-- A context with no provider at all. -/
def noProviderCtx : AmbientContext :=
  { frameEthProvider := none, windowEthereum := none }

/-- A fetch environment whose chain read fails; the fetch then leaves its
balance untouched, which keeps examples independent of formatting. -/
def failingFetch : FetchEnv :=
  { ctx := browserCtx, read := Except.error "network error" }

/-- Storage with no persisted record. -/
def emptyStorage : LocalStorage := { walletConnected := none, walletAddress := none }

/-- The widget state at page load over empty storage. -/
def initialWidget : WidgetState := { session := initialSession, storage := emptyStorage }

/-- A `connectWallet` environment in which no provider resolves. -/
def noProviderConnectEnv : ConnectEnv :=
  { ctx := noProviderCtx
  , requestAccounts := Except.ok none
  , ethFetch := failingFetch
  , usdcFetch := failingFetch
  , chainIdResp := Except.ok none }

/-- A `connectWallet` environment whose interactive account request is
rejected by the user. -/
def rejectionConnectEnv : ConnectEnv :=
  { ctx := browserCtx
  , requestAccounts := Except.error "User rejected the request."
  , ethFetch := failingFetch
  , usdcFetch := failingFetch
  , chainIdResp := Except.ok none }

/-- A widget state with an established connection to account `0xabc`. -/
def connectedWidget : WidgetState :=
  { session :=
    { address := "0xabc", chainId := 8453, isConnected := true, isConnecting := false
    , error := "", ethBalance := "1.5000", usdcBalance := "1.23" }
  , storage := { walletConnected := some "true", walletAddress := some "0xabc" } }

/-- A `connectWallet` environment that succeeds with one account. -/
def successConnectEnv : ConnectEnv :=
  { ctx := browserCtx
  , requestAccounts := Except.ok (some ["0xabc"])
  , ethFetch := failingFetch
  , usdcFetch := failingFetch
  , chainIdResp := Except.ok (some "0x2105") }

/-- A transfer environment over the browser provider whose write succeeds. -/
def demoTransferEnv : TransferEnv :=
  { frameWindowEthereum := none
  , windowEthereum := some { self := demoProvider, providers := [] }
  , ethAccounts := Except.ok (some ["0xabc"])
  , requestAccounts := Except.ok ()
  , writeContract := Except.ok "0xhash"
  , usdcFetch := failingFetch }

/-- A widget state observed while a `connectWallet` attempt is in flight
(`isConnecting` set) and an account is adopted. -/
def midConnectWidget : WidgetState :=
  { session :=
    { address := "0xabc", chainId := 8453, isConnected := true, isConnecting := true
    , error := "", ethBalance := "", usdcBalance := "" }
  , storage := { walletConnected := some "true", walletAddress := some "0xabc" } }

/-- A demonstration trace: connect, chain switch, disconnect event, transfer
attempt. -/
def demoTrace : List SessionOp :=
  [ SessionOp.connect successConnectEnv
  , SessionOp.chainChangedEvent "0x2105" failingFetch failingFetch
  , SessionOp.accountsChangedEvent [] failingFetch failingFetch
  , SessionOp.transfer demoTransferEnv ]

@[simp] theorem fetchEthBalance_address (env : FetchEnv) (addr : String) (s : Session) :
    (fetchEthBalance env addr s).address = s.address := by
  unfold fetchEthBalance
  cases getProvider env.ctx with
  | none => rfl
  | some p => cases env.read <;> rfl

@[simp] theorem fetchEthBalance_chainId (env : FetchEnv) (addr : String) (s : Session) :
    (fetchEthBalance env addr s).chainId = s.chainId := by
  unfold fetchEthBalance
  cases getProvider env.ctx with
  | none => rfl
  | some p => cases env.read <;> rfl

@[simp] theorem fetchEthBalance_isConnected (env : FetchEnv) (addr : String) (s : Session) :
    (fetchEthBalance env addr s).isConnected = s.isConnected := by
  unfold fetchEthBalance
  cases getProvider env.ctx with
  | none => rfl
  | some p => cases env.read <;> rfl

@[simp] theorem fetchEthBalance_isConnecting (env : FetchEnv) (addr : String) (s : Session) :
    (fetchEthBalance env addr s).isConnecting = s.isConnecting := by
  unfold fetchEthBalance
  cases getProvider env.ctx with
  | none => rfl
  | some p => cases env.read <;> rfl

@[simp] theorem fetchEthBalance_error (env : FetchEnv) (addr : String) (s : Session) :
    (fetchEthBalance env addr s).error = s.error := by
  unfold fetchEthBalance
  cases getProvider env.ctx with
  | none => rfl
  | some p => cases env.read <;> rfl

@[simp] theorem fetchEthBalance_usdcBalance (env : FetchEnv) (addr : String) (s : Session) :
    (fetchEthBalance env addr s).usdcBalance = s.usdcBalance := by
  unfold fetchEthBalance
  cases getProvider env.ctx with
  | none => rfl
  | some p => cases env.read <;> rfl

@[simp] theorem fetchUsdcBalance_address (env : FetchEnv) (addr : String) (s : Session) :
    (fetchUsdcBalance env addr s).address = s.address := by
  unfold fetchUsdcBalance
  cases getProvider env.ctx with
  | none => rfl
  | some p => cases env.read <;> rfl

@[simp] theorem fetchUsdcBalance_chainId (env : FetchEnv) (addr : String) (s : Session) :
    (fetchUsdcBalance env addr s).chainId = s.chainId := by
  unfold fetchUsdcBalance
  cases getProvider env.ctx with
  | none => rfl
  | some p => cases env.read <;> rfl

@[simp] theorem fetchUsdcBalance_isConnected (env : FetchEnv) (addr : String) (s : Session) :
    (fetchUsdcBalance env addr s).isConnected = s.isConnected := by
  unfold fetchUsdcBalance
  cases getProvider env.ctx with
  | none => rfl
  | some p => cases env.read <;> rfl

@[simp] theorem fetchUsdcBalance_isConnecting (env : FetchEnv) (addr : String) (s : Session) :
    (fetchUsdcBalance env addr s).isConnecting = s.isConnecting := by
  unfold fetchUsdcBalance
  cases getProvider env.ctx with
  | none => rfl
  | some p => cases env.read <;> rfl

@[simp] theorem fetchUsdcBalance_error (env : FetchEnv) (addr : String) (s : Session) :
    (fetchUsdcBalance env addr s).error = s.error := by
  unfold fetchUsdcBalance
  cases getProvider env.ctx with
  | none => rfl
  | some p => cases env.read <;> rfl

@[simp] theorem fetchUsdcBalance_ethBalance (env : FetchEnv) (addr : String) (s : Session) :
    (fetchUsdcBalance env addr s).ethBalance = s.ethBalance := by
  unfold fetchUsdcBalance
  cases getProvider env.ctx with
  | none => rfl
  | some p => cases env.read <;> rfl

/-- The `Connected` status is exactly the `isConnected` signal under the
refinement map. -/
theorem connectionStatus_eq_connected (s : Session) :
    s.connectionStatus = ConnectionStatus.Connected ↔ s.isConnected = true := by
  unfold Session.connectionStatus
  cases h : s.isConnected <;> cases h2 : s.isConnecting <;> simp

/-- The invariant unfolded to the underlying signals. -/
theorem connectedIffAddress_def (s : Session) :
    connectedIffAddress s ↔ (s.isConnected = true ↔ s.address ≠ "") := by
  unfold connectedIffAddress
  rw [connectionStatus_eq_connected]

/-- The operation `connectWallet` preserves the invariant when the provider delivers
well-formed accounts. -/
theorem connectWallet_inv (env : ConnectEnv) (w : WidgetState)
    (hwf : callAccountsOk env.requestAccounts = true)
    (hw : connectedIffAddress w.session) :
    connectedIffAddress (connectWallet env w).1.session := by
  rw [connectedIffAddress_def] at hw ⊢
  unfold connectWallet
  rcases hp : getProvider env.ctx with _ | p
  · simpa using hw
  · rcases hr : env.requestAccounts with m | oaccts
    · simpa using hw
    · unfold callAccountsOk at hwf
      rw [hr] at hwf
      rcases oaccts with _ | l
      · simpa using hw
      · rcases l with _ | ⟨acct, rest⟩
        · simpa using hw
        · unfold firstAccountOk at hwf
          simp at hwf
          rcases hc : env.chainIdResp with m | och
          · simpa using hwf
          · rcases och with _ | h
            · simpa using hwf
            · by_cases hh : h = "" <;> simp [hh, hwf]

/-- The operation `checkExistingConnection` preserves the invariant when the provider
delivers well-formed accounts. -/
theorem checkExistingConnection_inv (env : InitEnv) (w : WidgetState)
    (hwf : callAccountsOk env.ethAccounts = true)
    (hw : connectedIffAddress w.session) :
    connectedIffAddress (checkExistingConnection env w).session := by
  rw [connectedIffAddress_def] at hw ⊢
  unfold checkExistingConnection
  rcases hp : getProvider env.ctx with _ | p
  · simpa using hw
  · rcases hr : env.ethAccounts with m | oaccts
    · simpa using hw
    · unfold callAccountsOk at hwf
      rw [hr] at hwf
      rcases oaccts with _ | l
      · rcases hsa : w.storage.walletAddress with _ | sa
        · simpa using hw
        · by_cases hwc : w.storage.walletConnected = some "true" ∧ sa ≠ ""
          · rcases hq : env.requestAccounts with m | u
            · simp [hwc]
              simpa using hw
            · simp [hwc, hwc.2]
          · simp [hwc]
            simpa using hw
      · rcases l with _ | ⟨acct, rest⟩
        · rcases hsa : w.storage.walletAddress with _ | sa
          · simpa using hw
          · by_cases hwc : w.storage.walletConnected = some "true" ∧ sa ≠ ""
            · rcases hq : env.requestAccounts with m | u
              · simp [hwc]
                simpa using hw
              · simp [hwc, hwc.2]
            · simp [hwc]
              simpa using hw
        · unfold firstAccountOk at hwf
          simp at hwf
          rcases hc : env.chainIdResp with m | och
          · simpa using hwf
          · rcases och with _ | h
            · simpa using hwf
            · by_cases hh : h = "" <;> simp [hh, hwf]

/-- The `accountsChanged` handler preserves the invariant for well-formed
event payloads. -/
theorem onAccountsChanged_inv (accounts : List String) (ethF usdcF : FetchEnv)
    (w : WidgetState) (hwf : firstAccountOk (some accounts) = true) :
    connectedIffAddress (onAccountsChanged accounts ethF usdcF w).session := by
  rw [connectedIffAddress_def]
  unfold onAccountsChanged
  rcases accounts with _ | ⟨acct, rest⟩
  · simp
  · unfold firstAccountOk at hwf
    simp at hwf
    simp [hwf]

/-- The `chainChanged` handler preserves the invariant. -/
theorem onChainChanged_inv (h : String) (ethF usdcF : FetchEnv) (w : WidgetState)
    (hw : connectedIffAddress w.session) :
    connectedIffAddress (onChainChanged h ethF usdcF w).session := by
  rw [connectedIffAddress_def] at hw ⊢
  unfold onChainChanged
  by_cases ha : w.session.address = "" <;> simp [ha] <;> simpa [ha] using hw

/-- The write step never touches `address` or the connected flag. -/
theorem sendTransactionWrite_frame (env : TransferEnv) (w : WidgetState) :
    (sendTransactionWrite env w).1.session.address = w.session.address ∧
    (sendTransactionWrite env w).1.session.isConnected = w.session.isConnected := by
  unfold sendTransactionWrite
  rcases env.writeContract with m | h <;> simp

/-- The operation `sendTransaction` preserves the invariant. -/
theorem sendTransaction_inv (env : TransferEnv) (w : WidgetState)
    (hw : connectedIffAddress w.session) :
    connectedIffAddress (sendTransaction env w).1.session := by
  have hfr := sendTransactionWrite_frame env w
  rw [connectedIffAddress_def] at hw ⊢
  unfold sendTransaction
  by_cases hc : w.session.isConnected
  · simp only [hc, Bool.not_true, Bool.false_eq_true, if_false]
    rcases transferProvider env with _ | p
    · simpa using hw.mp hc
    · rcases env.ethAccounts with m | oaccts
      · simpa using hw.mp hc
      · rcases oaccts with _ | l
        · rcases env.requestAccounts with m | u
          · simpa using hw.mp hc
          · rw [hfr.1, hfr.2]
            exact hw
        · rcases l with _ | ⟨a, rest⟩
          · rcases env.requestAccounts with m | u
            · simpa using hw.mp hc
            · rw [hfr.1, hfr.2]
              exact hw
          · rw [hfr.1, hfr.2]
            exact hw
  · have hf : w.session.isConnected = false := by
      cases hb : w.session.isConnected
      · rfl
      · exact absurd hb hc
    rw [hf] at hw
    simp only [hf, Bool.not_false, if_true]
    simpa using hw

/-- One step preserves the invariant. -/
theorem runOp_inv (op : SessionOp) (w : WidgetState)
    (hop : opAccountsOk op = true) (hw : connectedIffAddress w.session) :
    connectedIffAddress (runOp op w).session := by
  cases op with
  | init env => exact checkExistingConnection_inv env w hop hw
  | connect env => exact connectWallet_inv env w hop hw
  | accountsChangedEvent accounts ethF usdcF =>
      exact onAccountsChanged_inv accounts ethF usdcF w hop
  | chainChangedEvent h ethF usdcF => exact onChainChanged_inv h ethF usdcF w hw
  | transfer env => exact sendTransaction_inv env w hw

/-- Any well-formed trace preserves the invariant. -/
theorem runOps_inv (ops : List SessionOp) (w : WidgetState)
    (hops : ops.all opAccountsOk = true) (hw : connectedIffAddress w.session) :
    connectedIffAddress (runOps ops w).session := by
  induction ops generalizing w with
  | nil => exact hw
  | cons op rest ih =>
    rw [List.all_cons, Bool.and_eq_true] at hops
    exact ih (runOp op w) hops.2 (runOp_inv op w hops.1 hw)

/-- C2: every `resolveProvider()` call re-evaluates, in order, the host-frame
provider, the browser-injected provider, and the first entry of the browser
multi-provider list, and returns the first source that exists (`none` when no
source does).  `getProvider` is a pure function of the per-call ambient
context, so the result is recomputed from the live context on every call with
no caching. -/
theorem getProvider_resolution_order (ctx : AmbientContext) :
    getProvider ctx = firstSource (resolutionSources ctx) := by
  rcases ctx with ⟨fp, we⟩
  rcases fp with _ | p
  · rcases we with _ | b
    · rfl
    · rfl
  · rfl

/-- C10: the multi-provider branch of `getProvider` is dead — the list is read
off `window.ethereum` itself, which the second branch already consumed — so
the three-source resolver equals the resolver that consults only the
host-frame and browser-injected sources. -/
theorem getProvider_eq_twoSources (ctx : AmbientContext) :
    getProvider ctx = getProviderTwoSources ctx := by
  rcases ctx with ⟨fp, we⟩
  rcases fp with _ | p
  · rcases we with _ | b
    · rfl
    · rfl
  · rfl

/-- C5: with a native-currency balance of `1500000000000000000` wei,
`fetchEthBalance` stores `"1.5000"`; with a token balance of `1234567`
base units (6 decimals), `fetchUsdcBalance` stores `"1.23"`. -/
theorem balance_formatting_examples :
    (fetchEthBalance { ctx := browserCtx, read := Except.ok 1500000000000000000 }
        "0xabc" initialSession).ethBalance = "1.5000"
    ∧ (fetchUsdcBalance { ctx := browserCtx, read := Except.ok 1234567 }
        "0xabc" initialSession).usdcBalance = "1.23" := by
  constructor <;> decide

/-- C8: a balance fetch never touches `error` (failures are logged only) and
never modifies any session field other than its own balance field, on every
path — provider missing, chain read failing, or read succeeding. -/
theorem fetch_balances_frame_effect (env : FetchEnv) (addr : String) (s : Session) :
    ((fetchEthBalance env addr s).error = s.error
      ∧ (fetchEthBalance env addr s).address = s.address
      ∧ (fetchEthBalance env addr s).chainId = s.chainId
      ∧ (fetchEthBalance env addr s).isConnected = s.isConnected
      ∧ (fetchEthBalance env addr s).isConnecting = s.isConnecting
      ∧ (fetchEthBalance env addr s).usdcBalance = s.usdcBalance)
    ∧ ((fetchUsdcBalance env addr s).error = s.error
      ∧ (fetchUsdcBalance env addr s).address = s.address
      ∧ (fetchUsdcBalance env addr s).chainId = s.chainId
      ∧ (fetchUsdcBalance env addr s).isConnected = s.isConnected
      ∧ (fetchUsdcBalance env addr s).isConnecting = s.isConnecting
      ∧ (fetchUsdcBalance env addr s).ethBalance = s.ethBalance) :=
  ⟨⟨fetchEthBalance_error env addr s, fetchEthBalance_address env addr s,
    fetchEthBalance_chainId env addr s, fetchEthBalance_isConnected env addr s,
    fetchEthBalance_isConnecting env addr s, fetchEthBalance_usdcBalance env addr s⟩,
   ⟨fetchUsdcBalance_error env addr s, fetchUsdcBalance_address env addr s,
    fetchUsdcBalance_chainId env addr s, fetchUsdcBalance_isConnected env addr s,
    fetchUsdcBalance_isConnecting env addr s, fetchUsdcBalance_ethBalance env addr s⟩⟩

/-- C9 (the claim is what the code intends but not what it does): the teardown
action passes fresh no-op closures to `provider.on(...)`, which subscribes —
it detaches nothing.  After teardown on a provider carrying the widget's
handlers, both original handlers are still attached (they still fire) and the
subscription lists have grown by one no-op entry each. -/
theorem cleanup_leaves_handlers_attached :
    widgetAccountsHandler ∈ (cleanupListeners browserCtx
        (setupEventListeners browserCtx emptyListeners)).accountsChangedHandlers
    ∧ widgetChainHandler ∈ (cleanupListeners browserCtx
        (setupEventListeners browserCtx emptyListeners)).chainChangedHandlers
    ∧ (cleanupListeners browserCtx
        (setupEventListeners browserCtx emptyListeners)).accountsChangedHandlers
        = [widgetAccountsHandler, noopAccountsHandler]
    ∧ (cleanupListeners browserCtx
        (setupEventListeners browserCtx emptyListeners)).chainChangedHandlers
        = [widgetChainHandler, noopChainHandler] := by
  refine ⟨?_, ?_, rfl, rfl⟩ <;> decide

/-- C7: whenever the session is not `Connected`, `sendTransfer` fails
immediately: `lastError` becomes the connect-first message, no other session
or storage field changes, and no transaction is submitted. -/
theorem sendTransaction_requires_connected (env : TransferEnv) (w : WidgetState)
    (h : w.session.connectionStatus ≠ ConnectionStatus.Connected) :
    (sendTransaction env w).1
      = { w with session := { w.session with error := "Please connect your wallet first" } }
    ∧ (sendTransaction env w).2 = false := by
  have hf : w.session.isConnected = false := by
    cases hb : w.session.isConnected
    · rfl
    · exact absurd ((connectionStatus_eq_connected w.session).mpr hb) h
  unfold sendTransaction
  rw [hf]
  exact ⟨rfl, rfl⟩

/-- Witness for C7 at the page-load state: not connected, and the call leaves
everything but `error` unchanged and submits nothing. -/
theorem sendTransaction_requires_connected_witness :
    initialWidget.session.connectionStatus ≠ ConnectionStatus.Connected
    ∧ ((sendTransaction demoTransferEnv initialWidget).1
        = { initialWidget with session :=
            { initialWidget.session with error := "Please connect your wallet first" } }
      ∧ (sendTransaction demoTransferEnv initialWidget).2 = false) :=
  ⟨by decide, sendTransaction_requires_connected demoTransferEnv initialWidget (by decide)⟩

/-- A session whose `isConnecting` signal is clear is never in the
`Connecting` status. -/
theorem connectionStatus_ne_connecting (s : Session) (h : s.isConnecting = false) :
    s.connectionStatus ≠ ConnectionStatus.Connecting := by
  unfold Session.connectionStatus
  rw [h]
  cases hb : s.isConnected <;> simp

/-- C1 (amended): every `connectWallet` invocation terminates with
`connectionStatus` no longer `Connecting` — the `finally` finalizer writes
`isConnecting := false` on every path — but the flag is not cleared exactly
once: the no-provider path clears it explicitly before its early return and
the finalizer then clears it again, so that path performs two clearing
writes, every other path one. -/
theorem connectWallet_clears_connecting (env : ConnectEnv) (w : WidgetState) :
    (connectWallet env w).1.session.isConnecting = false
    ∧ (connectWallet env w).1.session.connectionStatus ≠ ConnectionStatus.Connecting
    ∧ (connectWallet env w).2.count false
        = (if getProvider env.ctx = none then 2 else 1) := by
  unfold connectWallet
  rcases hp : getProvider env.ctx with _ | p
  · exact ⟨rfl, connectionStatus_ne_connecting _ rfl, by simp⟩
  · rcases hr : env.requestAccounts with m | oaccts
    · exact ⟨rfl, connectionStatus_ne_connecting _ rfl, by simp⟩
    · rcases oaccts with _ | l
      · exact ⟨rfl, connectionStatus_ne_connecting _ rfl, by simp⟩
      · rcases l with _ | ⟨acct, rest⟩
        · exact ⟨rfl, connectionStatus_ne_connecting _ rfl, by simp⟩
        · rcases hc : env.chainIdResp with m | och
          · exact ⟨rfl, connectionStatus_ne_connecting _ rfl, by simp⟩
          · rcases och with _ | hx
            · exact ⟨rfl, connectionStatus_ne_connecting _ rfl, by simp⟩
            · exact ⟨rfl, connectionStatus_ne_connecting _ rfl, by simp⟩

/-- C1 counterexample: in the no-provider outcome the `Connecting` flag is
written `false` twice in one invocation (the explicit pre-return clear and
the finalizer), refuting "cleared exactly once per invocation". -/
theorem connectWallet_no_provider_double_clear :
    (connectWallet noProviderConnectEnv initialWidget).2.count false = 2
    ∧ ¬ (connectWallet noProviderConnectEnv initialWidget).2.count false = 1 := by
  decide

/-- C3 (amended): when a resolved provider rejects the interactive
account-authorization request, `connectWallet` stores the provider's message
(or a fallback when the message is empty) in `error` and clears `Connecting`,
but it leaves `address`, the connected flag and the persisted record exactly
as they were at entry — it does not reset `address` to empty or force
`Disconnected`. -/
theorem connectWallet_rejection_effect (env : ConnectEnv) (w : WidgetState)
    (p : EthereumProvider) (m : String)
    (hp : getProvider env.ctx = some p) (hr : env.requestAccounts = Except.error m) :
    (connectWallet env w).1.session.error
        = (if m = "" then "Failed to connect wallet. Please try again." else m)
    ∧ (connectWallet env w).1.session.address = w.session.address
    ∧ (connectWallet env w).1.session.isConnected = w.session.isConnected
    ∧ (connectWallet env w).1.session.isConnecting = false
    ∧ (connectWallet env w).1.storage = w.storage := by
  unfold connectWallet
  rw [hp, hr]
  exact ⟨rfl, rfl, rfl, rfl, rfl⟩

/-- Witness for the amended C3 at a concrete rejection. -/
theorem connectWallet_rejection_effect_witness :
    getProvider rejectionConnectEnv.ctx = some demoProvider
    ∧ rejectionConnectEnv.requestAccounts = Except.error "User rejected the request."
    ∧ ((connectWallet rejectionConnectEnv connectedWidget).1.session.error
        = (if "User rejected the request." = ""
            then "Failed to connect wallet. Please try again."
            else "User rejected the request.")
      ∧ (connectWallet rejectionConnectEnv connectedWidget).1.session.address
          = connectedWidget.session.address
      ∧ (connectWallet rejectionConnectEnv connectedWidget).1.session.isConnected
          = connectedWidget.session.isConnected
      ∧ (connectWallet rejectionConnectEnv connectedWidget).1.session.isConnecting = false
      ∧ (connectWallet rejectionConnectEnv connectedWidget).1.storage
          = connectedWidget.storage) :=
  ⟨rfl, rfl,
    connectWallet_rejection_effect rejectionConnectEnv connectedWidget demoProvider
      "User rejected the request." rfl rfl⟩

/-- C3 counterexample: invoked from a connected session, a provider rejection
leaves `address` at `"0xabc"` and the status `Connected` — the claim's
"resets `address` to empty and sets `connectionStatus` to `Disconnected`"
fails on the code. -/
theorem connectWallet_rejection_counterexample :
    (connectWallet rejectionConnectEnv connectedWidget).1.session.error
        = "User rejected the request."
    ∧ (connectWallet rejectionConnectEnv connectedWidget).1.session.address = "0xabc"
    ∧ ¬ (connectWallet rejectionConnectEnv connectedWidget).1.session.address = ""
    ∧ (connectWallet rejectionConnectEnv connectedWidget).1.session.connectionStatus
        = ConnectionStatus.Connected := by
  decide

/-- C4 (amended): the empty-account-list event clears `address`, both
balances and the connected flag and clears the persisted record, for every
prior state; the resulting `connectionStatus` is `Disconnected` whenever no
`connect()` attempt is in flight, and remains `Connecting` when one is —
the handler never touches `isConnecting`. -/
theorem onAccountsChanged_empty_clears (ethF usdcF : FetchEnv) (w : WidgetState) :
    (onAccountsChanged [] ethF usdcF w).session.address = ""
    ∧ (onAccountsChanged [] ethF usdcF w).session.ethBalance = ""
    ∧ (onAccountsChanged [] ethF usdcF w).session.usdcBalance = ""
    ∧ (onAccountsChanged [] ethF usdcF w).session.isConnected = false
    ∧ (onAccountsChanged [] ethF usdcF w).storage = clearConnectionState w.storage
    ∧ (onAccountsChanged [] ethF usdcF w).session.connectionStatus
        = (if w.session.isConnecting then ConnectionStatus.Connecting
            else ConnectionStatus.Disconnected) := by
  refine ⟨rfl, rfl, rfl, rfl, rfl, ?_⟩
  unfold onAccountsChanged Session.connectionStatus
  cases h : w.session.isConnecting <;> simp [h]

/-- C4 counterexample: if the empty-account event arrives while a
`connectWallet` attempt is in flight (`isConnecting` set), the final status
is `Connecting`, not `Disconnected` — so "sets `connectionStatus` to
`Disconnected` for all prior states" fails on the code. -/
theorem onAccountsChanged_empty_counterexample :
    (onAccountsChanged [] failingFetch failingFetch midConnectWidget).session.connectionStatus
        = ConnectionStatus.Connecting
    ∧ ¬ (onAccountsChanged [] failingFetch failingFetch
          midConnectWidget).session.connectionStatus = ConnectionStatus.Disconnected := by
  decide

/-- C6: starting from the page-load session, after any sequence of completed
Session Controller operations (session restore, connect, account-change and
chain-change events, transfer) in which the provider boundary delivers only
non-empty account strings, the session satisfies
`connectionStatus = Connected ⇔ address ≠ ""`. -/
theorem session_controller_invariant (storage : LocalStorage) (ops : List SessionOp)
    (hops : ops.all opAccountsOk = true) :
    ((runOps ops { session := initialSession, storage := storage }).session.connectionStatus
        = ConnectionStatus.Connected
      ↔ (runOps ops { session := initialSession, storage := storage }).session.address ≠ "") :=
  runOps_inv ops { session := initialSession, storage := storage } hops
    (show connectedIffAddress initialSession by decide)

/-- Witness for C6 on a four-operation trace. -/
theorem session_controller_invariant_witness :
    demoTrace.all opAccountsOk = true
    ∧ ((runOps demoTrace { session := initialSession, storage := emptyStorage }).session.connectionStatus
        = ConnectionStatus.Connected
      ↔ (runOps demoTrace { session := initialSession, storage := emptyStorage }).session.address
          ≠ "") :=
  ⟨by decide, session_controller_invariant emptyStorage demoTrace (by decide)⟩
